import Mathlib

/-!
Verification development for the CoSounds audio crossfade engine.

Part A embeds the single-channel crossfade player of
src/model/core/player.py (class Player): its mutable session state, the
operations play, transition, stop, get_playing, is_transitioning, and the
linear 101-step volume envelopes used by the fade threads.

Part B embeds the multi-layer manager of src/player/src/app/player.py
(class LayerManager) together with a model of the pygame 16-channel mixer
pool: find_channel returns the first non-busy channel, fadeout marks a
busy channel as fading (it stays busy until the fade elapses), play
starts a sound on a channel.

Stateful python methods become pure functions from a state to a pair of
the new state and the list of observable mixer effects (events) the call
issues.  Filesystem lookups (Player._get_audio_path) are modelled by a
boolean oracle passed explicitly; a false answer follows the code into
its exception handler.
-/

namespace CoSounds

/-- Observable pygame mixer effects issued by the single-channel Player. -/
inductive PEvent where
  | mixerInit
  | mixerStopAll
  | mixerQuit
  | chPlay (ch : Nat) (sound : String) (loops : Int)
  | chSetVolume (ch : Nat) (vol : ℚ)
  | fadeInThread (ch : Nat) (fadeDuration : ℚ)
  | crossfadeThread (outCh inCh : Nat) (fadeDuration : ℚ)
deriving DecidableEq, Repr

/-- The mutable fields of Player (src/model/core/player.py, lines 24-32). -/
structure PlayerState where
  playing : Option String
  initialized : Bool
  currentChannel : Nat
  nextChannel : Nat
  isTransitioning : Bool
  transitionDuration : ℚ
deriving DecidableEq, Repr

/-- The fresh Player of Player.__init__. -/
def PlayerState.init : PlayerState :=
  { playing := none, initialized := false, currentChannel := 0,
    nextChannel := 1, isTransitioning := false, transitionDuration := 0 }

namespace Player

/-- Player._ensure_mixer: initialize the pygame mixer once. -/
def ensureMixer (s : PlayerState) : PlayerState × List PEvent :=
  if s.initialized then (s, [])
  else ({ s with initialized := true }, [PEvent.mixerInit])

/-- Player.get_playing. -/
def get_playing (s : PlayerState) : Option String := s.playing

/-- Player.is_transitioning. -/
def is_transitioning (s : PlayerState) : Bool := s.isTransitioning

/-- Player.transition (lines 110-179).  fs is the filesystem oracle for
Player._get_audio_path: fs sound = false means the audio file is absent,
so _get_audio_path raises FileNotFoundError, which the handler at lines
176-179 catches, logging and setting _is_transitioning to False. -/
def transition (fs : String → Bool) (s : PlayerState) (sound : String)
    (duration : ℚ) (force : Bool) : PlayerState × List PEvent :=
  let e := ensureMixer s
  if fs sound = false then
    ({ e.1 with isTransitioning := false }, e.2)
  else if some sound = e.1.playing ∧ force = false then
    (e.1, e.2)
  else if e.1.isTransitioning then
    (e.1, e.2)
  else
    ({ e.1 with
        isTransitioning := true,
        transitionDuration := duration,
        currentChannel := e.1.nextChannel,
        nextChannel := e.1.currentChannel,
        playing := some sound },
     e.2 ++ [PEvent.chPlay e.1.nextChannel sound (-1),
             PEvent.chSetVolume e.1.nextChannel 0,
             PEvent.crossfadeThread e.1.currentChannel e.1.nextChannel duration])

/-- The tail of the crossfade worker thread (lines 160-166): once the
101-step loop has elapsed it pins the final volumes and clears the
transitioning flag under the lock. -/
def crossfadeComplete (s : PlayerState) : PlayerState :=
  { s with isTransitioning := false }

/-- Player.play (lines 54-108) for an explicitly named sound.  It stops
every channel and restarts the sound from the beginning on the current
channel; the exception handler at lines 107-108 only logs. -/
def play (fs : String → Bool) (s : PlayerState) (sound : String)
    (fade_in : Bool) (fade_duration : ℚ) : PlayerState × List PEvent :=
  let e := ensureMixer s
  if fs sound = false then
    (e.1, e.2)
  else
    ({ e.1 with playing := some sound },
     e.2 ++ [PEvent.mixerStopAll,
             PEvent.chPlay e.1.currentChannel sound (-1)] ++
       (if fade_in then [PEvent.fadeInThread e.1.currentChannel fade_duration]
        else [PEvent.chSetVolume e.1.currentChannel 1]))

/-- Player.stop (lines 191-202): set _playing to None, and when the mixer
was initialized stop it and quit, inside a try/except that only logs. -/
def stop (s : PlayerState) : PlayerState × List PEvent :=
  let s1 := { s with playing := (none : Option String) }
  if s1.initialized then
    ({ s1 with initialized := false }, [PEvent.mixerStopAll, PEvent.mixerQuit])
  else
    (s1, [])

/-- Number of envelope steps in both fade threads (steps = 100, loop over
range(steps + 1), lines 92-94 and 148-151). -/
def crossfadeSteps : Nat := 100

/-- Fade-in volume at step i of the envelope: i / steps
(line 95 in fade_in_volume, line 157 in crossfade). -/
def fadeInGain (i : Nat) : ℚ := (i : ℚ) / (crossfadeSteps : ℚ)

/-- Fade-out volume at step i of the crossfade: 1.0 - progress
(line 155 in crossfade). -/
def fadeOutGain (i : Nat) : ℚ := 1 - (i : ℚ) / (crossfadeSteps : ℚ)

end Player

/-- True when a PEvent is a channel play start. -/
def PEvent.isPlay : PEvent → Bool
  | PEvent.chPlay _ _ _ => true
  | _ => false

/-- A filesystem oracle under which every audio file exists. -/
def allFiles : String → Bool := fun _ => true

/-- A filesystem oracle under which no audio file exists. -/
def noFiles : String → Bool := fun _ => false

/-- A concrete steady Player session: rain.wav playing, no fade running. -/
def steadyState : PlayerState :=
  { playing := some "rain.wav", initialized := true, currentChannel := 0,
    nextChannel := 1, isTransitioning := false, transitionDuration := 30 }

/-- A concrete mid-crossfade Player session: wind.wav is the target of a
crossfade that is still running. -/
def midFadeState : PlayerState :=
  { playing := some "wind.wav", initialized := true, currentChannel := 1,
    nextChannel := 0, isTransitioning := true, transitionDuration := 30 }

/-! ## Part B: the multi-layer manager of src/player/src/app/player.py -/

/-- pygame.mixer.set_num_channels(16) at line 16: the bounded pool size. -/
def NUM_CHANNELS : Nat := 16

/-- One pygame mixer channel.  A channel that is fading out stays busy
until the fade elapses, so find_channel never hands it out. -/
structure Channel where
  busy : Bool
  volume : ℚ
  sound : Option String
  loops : Int
  fadingOutMs : Option Nat
deriving DecidableEq, Repr

/-- A channel with nothing playing on it. -/
def Channel.idle : Channel :=
  { busy := false, volume := 1, sound := none, loops := 0, fadingOutMs := none }

/-- pygame Channel.fadeout(ms): a busy channel begins fading out and
remains busy; a silent channel is unaffected. -/
def Channel.fadeoutCh (c : Channel) (ms : Nat) : Channel :=
  if c.busy then { c with fadingOutMs := some ms } else c

/-- pygame Channel.set_volume. -/
def Channel.withVolume (c : Channel) (g : ℚ) : Channel := { c with volume := g }

/-- pygame Channel.play(sound, loops, fade_ms): the channel becomes busy
with the given sound and loop count. -/
def Channel.startPlay (c : Channel) (path : String) (loops : Int) : Channel :=
  { c with busy := true, sound := some path, loops := loops, fadingOutMs := none }

/-- Observable mixer effects issued by LayerManager.transition. -/
inductive LMEvent where
  | fadeout (ch : Nat) (ms : Nat)
  | setVolume (ch : Nat) (gain : ℚ)
  | playCh (ch : Nat) (path : String) (loops : Int) (fadeMs : Nat)
deriving DecidableEq, Repr

/-- The channel an LMEvent acts on. -/
def LMEvent.target : LMEvent → Nat
  | LMEvent.fadeout ch _ => ch
  | LMEvent.setVolume ch _ => ch
  | LMEvent.playCh ch _ _ _ => ch

/-- One requested layer: a manifest id plus the optional global gain of
its gain dictionary (absent keys default to 1.0, lines 40-42). -/
structure Layer where
  id : String
  gain : Option ℚ
deriving DecidableEq, Repr

/-- track_gain.get with both defaults applied (lines 40 and 42). -/
def Layer.globalGain (l : Layer) : ℚ := l.gain.getD 1

/-- Point update of the channel pool. -/
def updateCh (m : Nat → Channel) (i : Nat) (f : Channel → Channel) :
    Nat → Channel :=
  Function.update m i (f (m i))

/-- Scan of the channel ids in order for the first non-busy one. -/
def findChannelAux (m : Nat → Channel) : List Nat → Option Nat
  | [] => none
  | i :: rest => if (m i).busy then findChannelAux m rest else some i

/-- pygame.mixer.find_channel(): the first non-busy channel of the
16-channel pool, or None when every channel is busy. -/
def find_channel (m : Nat → Channel) : Option Nat :=
  findChannelAux m (List.range NUM_CHANNELS)

/-- Number of non-busy channels in the pool. -/
def freeChannelCount (m : Nat → Channel) : Nat :=
  (List.range NUM_CHANNELS).countP (fun i => !(m i).busy)

/-- The mutable fields of LayerManager (lines 21-23): the pool state,
the list of active soundscape channel ids, and the tracked instrumental
channel id. -/
structure LMState where
  mixer : Nat → Channel
  activeChannels : List Nat
  instrumentalChannel : Option Nat

/-- True when the tracked instrumental channel exists and is still busy
(the condition under which lines 32-36 keep it). -/
def LMState.trackedInstrumentalBusy (s : LMState) : Bool :=
  match s.instrumentalChannel with
  | some i => (s.mixer i).busy
  | none => false

/-- One iteration of the soundscapes loop (lines 38-51): look up the
manifest path and gain, ask find_channel for a free channel, retry once
if it is the reserved instrumental channel, and if a channel distinct
from the instrumental one was found, set its volume and start the sound
looping forever with a 6000 ms fade-in.  Returns the new pool, the
channel started (if any), and the events issued. -/
def startSoundscape (manifest : String → String) (inst : Option Nat)
    (m : Nat → Channel) (l : Layer) :
    (Nat → Channel) × Option Nat × List LMEvent :=
  let path := manifest l.id
  let g := l.globalGain
  let ch0 := find_channel m
  let ch := if ch0 = inst then find_channel m else ch0
  match ch with
  | some i =>
      if some i = inst then (m, none, [])
      else
        (updateCh m i (fun c => (c.withVolume g).startPlay path (-1)),
         some i,
         [LMEvent.setVolume i g, LMEvent.playCh i path (-1) 6000])
  | none => (m, none, [])

/-- The full soundscapes loop, threading the pool and collecting the
started channels in order. -/
def processSoundscapes (manifest : String → String) (inst : Option Nat) :
    List Layer → (Nat → Channel) →
    (Nat → Channel) × List Nat × List LMEvent
  | [], m => (m, [], [])
  | l :: rest, m =>
    let r1 := startSoundscape manifest inst m l
    let r2 := processSoundscapes manifest inst rest r1.1
    (r2.1, r1.2.1.toList ++ r2.2.1, r1.2.2 ++ r2.2.2)

/-- One iteration of the instrumental loop (lines 58-68): find a free
channel and, if one exists, set its volume and play the sound exactly
once (loops = 0) with a 6000 ms fade-in. -/
def startInstrumental (manifest : String → String) (m : Nat → Channel)
    (l : Layer) : (Nat → Channel) × Option Nat × List LMEvent :=
  let path := manifest l.id
  let g := l.globalGain
  match find_channel m with
  | some i =>
      (updateCh m i (fun c => (c.withVolume g).startPlay path 0),
       some i,
       [LMEvent.setVolume i g, LMEvent.playCh i path 0 6000])
  | none => (m, none, [])

/-- The full instrumental loop; the tracked instrumental channel is
overwritten each time a channel is found. -/
def processInstrumentals (manifest : String → String) :
    List Layer → (Nat → Channel) → Option Nat →
    (Nat → Channel) × Option Nat × List LMEvent
  | [], m, inst => (m, inst, [])
  | l :: rest, m, inst =>
    let r1 := startInstrumental manifest m l
    let newInst := match r1.2.1 with
      | some i => some i
      | none => inst
    let r2 := processInstrumentals manifest rest r1.1 newInst
    (r2.1, r2.2.1, r1.2.2 ++ r2.2.2)

/-- The fade-out sweep of lines 28-29: fadeout(6000) on every channel of
the active list, in order. -/
def fadeAll (m : Nat → Channel) (L : List Nat) : Nat → Channel :=
  L.foldl (fun m i => updateCh m i (fun c => c.fadeoutCh 6000)) m

/-- LayerManager.transition (lines 25-68).  manifest maps a layer id to
its track path (the manifest.json lookup of line 41, modelled total: the
claims under study never exercise a missing id).  Steps, in source
order: fade out every active channel over 6000 ms and reset the active
list; forget the tracked instrumental channel when its one-shot has
finished; run the soundscapes loop; when no instrumental is still
playing, clear the tracked channel and run the instrumental loop. -/
def LayerManager.transition (manifest : String → String) (s : LMState)
    (soundscapes instrumental : List Layer) : LMState × List LMEvent :=
  let m0 := fadeAll s.mixer s.activeChannels
  let fadeEvts := s.activeChannels.map (fun i => LMEvent.fadeout i 6000)
  let inst0 : Option Nat :=
    match s.instrumentalChannel with
    | some i => if (m0 i).busy then some i else none
    | none => none
  let r1 := processSoundscapes manifest inst0 soundscapes m0
  let instGuard : Bool :=
    match inst0 with
    | none => true
    | some i => !(r1.1 i).busy
  let r2 :=
    if instGuard then processInstrumentals manifest instrumental r1.1 none
    else (r1.1, inst0, [])
  ({ mixer := r2.1, activeChannels := r1.2.1, instrumentalChannel := r2.2.1 },
   fadeEvts ++ r1.2.2 ++ r2.2.2)

/-- The tracked instrumental channel as the soundscapes loop sees it:
the staleness cleanup of lines 31-36 applied after the fade-out sweep
(which does not change busy status). -/
def cleanedInstrumental (s : LMState) : Option Nat :=
  match s.instrumentalChannel with
  | some i => if (fadeAll s.mixer s.activeChannels i).busy then some i else none
  | none => none

/-- A busy looping channel playing the given path. -/
def busyCh (path : String) : Channel :=
  { busy := true, volume := 1, sound := some path, loops := -1,
    fadingOutMs := none }

/-- A concrete manifest for evaluating the theorems. -/
def demoManifest : String → String := fun i => String.append i ".wav"

/-- A concrete LayerManager state: channels 0 and 1 carry soundscapes,
channel 2 carries a still-busy instrumental one-shot. -/
def demoLMState : LMState :=
  { mixer := fun i =>
      if i = 0 then busyCh "rain.wav"
      else if i = 1 then busyCh "wind.wav"
      else if i = 2 then
        { busy := true, volume := 1, sound := some "piano.wav", loops := 0,
          fadingOutMs := none }
      else Channel.idle,
    activeChannels := [0, 1],
    instrumentalChannel := some 2 }

/-- A pool in which every channel is busy (exhausted). -/
def fullMixer : Nat → Channel := fun _ => busyCh "loop.wav"

/-- A concrete soundscape layer request with an explicit global gain. -/
def demoLayer0 : Layer := { id := "7", gain := some (1 / 2) }

/-- A concrete layer-set of three soundscape layers. -/
def demoLayers : List Layer :=
  [demoLayer0, { id := "8", gain := none }, { id := "9", gain := some 1 }]

/-- A concrete instrumental request list with one layer. -/
def demoInsts : List Layer := [{ id := "3", gain := some (3 / 10) }]

/-! ## Theorems for the single-channel Player -/

/-- Claim C1: when the requested sound is exactly the one currently
playing and force is false, Player.transition is a no-op: the call
returns with the state (playing name, transitioning flag, channel
assignment) unchanged and issues no mixer effect at all, so a repeated
transition to the same asset leaves the original track active,
unmodified. -/
theorem transition_same_sound_noop (fs : String → Bool) (s : PlayerState)
    (X : String) (d : ℚ) (hfs : fs X = true) (hplay : s.playing = some X)
    (hinit : s.initialized = true) :
    Player.transition fs s X d false = (s, []) := by
  simp [Player.transition, Player.ensureMixer, hfs, hplay, hinit]

/-- Witness for C1 at a concrete steady session playing rain.wav. -/
theorem transition_same_sound_noop_witness :
    allFiles "rain.wav" = true ∧ steadyState.playing = some "rain.wav" ∧
    steadyState.initialized = true ∧
    Player.transition allFiles steadyState "rain.wav" 30 false =
      (steadyState, []) :=
  ⟨rfl, rfl, rfl,
   transition_same_sound_noop allFiles steadyState "rain.wav" 30 rfl rfl rfl⟩

/-- Claim C2: while a crossfade is in progress (the transitioning flag is
set), any further Player.transition call is dropped whole: the state is
returned unchanged (same playing name, flag still set, channels
untouched) and no mixer effect is issued, so nothing is queued and no
third generation is ever started. -/
theorem transition_overlap_dropped (fs : String → Bool) (s : PlayerState)
    (Y : String) (d : ℚ) (force : Bool) (ht : s.isTransitioning = true)
    (hfs : fs Y = true) (hinit : s.initialized = true) :
    Player.transition fs s Y d force = (s, []) := by
  simp [Player.transition, Player.ensureMixer, hfs, hinit, ht]

/-- Witness for C2 at a concrete mid-fade session. -/
theorem transition_overlap_dropped_witness :
    midFadeState.isTransitioning = true ∧ allFiles "storm.wav" = true ∧
    midFadeState.initialized = true ∧
    Player.transition allFiles midFadeState "storm.wav" 30 false =
      (midFadeState, []) :=
  ⟨rfl, rfl, rfl,
   transition_overlap_dropped allFiles midFadeState "storm.wav" 30 false
     rfl rfl rfl⟩

/-- Claim C3: an admitted transition (target differs from the playing
name, no crossfade in progress, asset present) sets the playing name to
the new target before returning, so get_playing immediately yields the
new sound; it starts the new sound on the spare channel; and
is_transitioning reads true right after the call and false once the
crossfade worker completes. -/
theorem transition_admitted (fs : String → Bool) (s : PlayerState)
    (Y : String) (d : ℚ) (hfs : fs Y = true) (hne : s.playing ≠ some Y)
    (ht : s.isTransitioning = false) (hinit : s.initialized = true) :
    Player.get_playing (Player.transition fs s Y d false).1 = some Y ∧
    Player.is_transitioning (Player.transition fs s Y d false).1 = true ∧
    Player.is_transitioning
      (Player.crossfadeComplete (Player.transition fs s Y d false).1) = false ∧
    PEvent.chPlay s.nextChannel Y (-1) ∈ (Player.transition fs s Y d false).2 := by
  have hne2 : ¬(some Y = s.playing) := fun h => hne h.symm
  simp [Player.transition, Player.ensureMixer, Player.get_playing,
    Player.is_transitioning, Player.crossfadeComplete, hfs, hne2, ht, hinit]

/-- Witness for C3: transition to wind.wav while rain.wav plays. -/
theorem transition_admitted_witness :
    allFiles "wind.wav" = true ∧ steadyState.playing ≠ some "wind.wav" ∧
    steadyState.isTransitioning = false ∧ steadyState.initialized = true ∧
    (Player.get_playing
        (Player.transition allFiles steadyState "wind.wav" 30 false).1 =
      some "wind.wav" ∧
    Player.is_transitioning
        (Player.transition allFiles steadyState "wind.wav" 30 false).1 = true ∧
    Player.is_transitioning (Player.crossfadeComplete
        (Player.transition allFiles steadyState "wind.wav" 30 false).1) = false ∧
    PEvent.chPlay steadyState.nextChannel "wind.wav" (-1) ∈
      (Player.transition allFiles steadyState "wind.wav" 30 false).2) :=
  ⟨rfl, by decide, rfl, rfl,
   transition_admitted allFiles steadyState "wind.wav" 30 rfl (by decide)
     rfl rfl⟩

/-- Claim C4: across the 101-step fade envelope (steps 0 to 100) the
fade-in gain i/100 and the fade-out gain 1 - i/100 both stay within
[0, 1]; the fade-in gain is non-decreasing and the fade-out gain
non-increasing in the step; and at every step the two concurrent gains
of a crossfade (forced self-crossfade included) sum to at most 1. -/
theorem envelope_bounded_monotone (i j : Nat) (hij : i ≤ j)
    (hj : j ≤ Player.crossfadeSteps) :
    0 ≤ Player.fadeInGain i ∧ Player.fadeInGain i ≤ 1 ∧
    0 ≤ Player.fadeOutGain i ∧ Player.fadeOutGain i ≤ 1 ∧
    Player.fadeInGain i ≤ Player.fadeInGain j ∧
    Player.fadeOutGain j ≤ Player.fadeOutGain i ∧
    Player.fadeInGain i + Player.fadeOutGain i ≤ 1 := by
  have hj100 : j ≤ 100 := hj
  have hiq : (0 : ℚ) ≤ (i : ℚ) := Nat.cast_nonneg i
  have hijq : (i : ℚ) ≤ (j : ℚ) := Nat.cast_le.mpr hij
  have hjq : (j : ℚ) ≤ 100 := by exact_mod_cast Nat.cast_le.mpr hj100
  have hiq100 : (i : ℚ) ≤ 100 := le_trans hijq hjq
  simp only [Player.fadeInGain, Player.fadeOutGain, Player.crossfadeSteps]
  push_cast
  constructor
  · positivity
  refine ⟨by linarith, by linarith, by linarith, by linarith, by linarith,
    by linarith⟩

/-- Witness for C4 at steps 25 and 75 of the envelope. -/
theorem envelope_bounded_monotone_witness :
    25 ≤ 75 ∧ 75 ≤ Player.crossfadeSteps ∧
    (0 ≤ Player.fadeInGain 25 ∧ Player.fadeInGain 25 ≤ 1 ∧
    0 ≤ Player.fadeOutGain 25 ∧ Player.fadeOutGain 25 ≤ 1 ∧
    Player.fadeInGain 25 ≤ Player.fadeInGain 75 ∧
    Player.fadeOutGain 75 ≤ Player.fadeOutGain 25 ∧
    Player.fadeInGain 25 + Player.fadeOutGain 25 ≤ 1) :=
  ⟨by decide, by decide,
   envelope_bounded_monotone 25 75 (by decide) (by decide)⟩

/-- Counterexample to claim C6: stopping the player in the middle of a
crossfade does not clear the transitioning flag: is_transitioning still
reads true right after stop returns, against the claim that the system
is no longer transitioning once stop completes. -/
theorem stop_mid_fade_still_transitioning :
    Player.is_transitioning midFadeState = true ∧
    Player.get_playing (Player.stop midFadeState).1 = none ∧
    Player.is_transitioning (Player.stop midFadeState).1 = true := by
  decide

/-- Claim C6 as amended: Player.stop is safe from any state, the mixer
never having been initialized included: it always returns (the handler
swallows mixer errors), get_playing reads None afterwards, the mixer is
deinitialized, and all playback is cleared (a mixer-wide stop is issued
whenever the mixer was live); the transitioning flag, however, is left
exactly as it was, and is cleared only by the crossfade worker. -/
theorem stop_safe (s : PlayerState) :
    Player.get_playing (Player.stop s).1 = none ∧
    (Player.stop s).1.initialized = false ∧
    Player.is_transitioning (Player.stop s).1 = Player.is_transitioning s ∧
    (Player.stop s).2 =
      (if s.initialized then [PEvent.mixerStopAll, PEvent.mixerQuit] else []) := by
  cases h : s.initialized <;>
    simp [Player.stop, Player.get_playing, Player.is_transitioning, h]

/-- Counterexample to claim C7: calling play with the sound that is
already playing is not a no-op: the call stops every channel and
restarts the sound from the beginning on the current channel. -/
theorem play_same_sound_restarts :
    Player.get_playing steadyState = some "rain.wav" ∧
    PEvent.mixerStopAll ∈ (Player.play allFiles steadyState "rain.wav" true 30).2 ∧
    PEvent.chPlay 0 "rain.wav" (-1) ∈
      (Player.play allFiles steadyState "rain.wav" true 30).2 := by
  decide

/-- Claim C7 as amended: Player.play is not idempotent: whenever the
asset resolves, play stops all channels and restarts the requested sound
from the beginning on the current channel, setting the playing name to
it, even when that sound is already the one playing; only
Player.transition has the same-sound no-op check. -/
theorem play_restarts (fs : String → Bool) (s : PlayerState) (sound : String)
    (fi : Bool) (d : ℚ) (hfs : fs sound = true) :
    Player.get_playing (Player.play fs s sound fi d).1 = some sound ∧
    PEvent.mixerStopAll ∈ (Player.play fs s sound fi d).2 ∧
    PEvent.chPlay s.currentChannel sound (-1) ∈ (Player.play fs s sound fi d).2 := by
  cases h : s.initialized <;>
    simp [Player.play, Player.ensureMixer, Player.get_playing, hfs, h]

/-- Witness for the amended C7 at the steady session, same sound. -/
theorem play_restarts_witness :
    allFiles "rain.wav" = true ∧
    (Player.get_playing
        (Player.play allFiles steadyState "rain.wav" true 30).1 =
      some "rain.wav" ∧
    PEvent.mixerStopAll ∈ (Player.play allFiles steadyState "rain.wav" true 30).2 ∧
    PEvent.chPlay steadyState.currentChannel "rain.wav" (-1) ∈
      (Player.play allFiles steadyState "rain.wav" true 30).2) :=
  ⟨rfl, play_restarts allFiles steadyState "rain.wav" true 30 rfl⟩

/-- Claim C10: when the asset lookup fails (the file is missing), the
exception raised before the same-sound and transitioning checks is
caught by the handler of Player.transition: the call returns normally,
starts nothing, leaves the playing name unchanged, and unconditionally
clears the transitioning flag, so a failed request issued during an
earlier crossfade re-opens admission while the two tracks still fade. -/
theorem transition_missing_file (fs : String → Bool) (s : PlayerState)
    (Y : String) (d : ℚ) (force : Bool) (hfs : fs Y = false) :
    (Player.transition fs s Y d force).1.isTransitioning = false ∧
    (Player.transition fs s Y d force).1.playing = s.playing ∧
    ∀ e ∈ (Player.transition fs s Y d force).2, PEvent.isPlay e = false := by
  cases h : s.initialized <;>
    simp [Player.transition, Player.ensureMixer, hfs, h, PEvent.isPlay]

/-- Witness for C10: a missing file requested mid-crossfade clears the
transitioning flag early. -/
theorem transition_missing_file_witness :
    noFiles "ghost.wav" = false ∧ midFadeState.isTransitioning = true ∧
    ((Player.transition noFiles midFadeState "ghost.wav" 30 false).1.isTransitioning
        = false ∧
    (Player.transition noFiles midFadeState "ghost.wav" 30 false).1.playing =
      midFadeState.playing ∧
    ∀ e ∈ (Player.transition noFiles midFadeState "ghost.wav" 30 false).2,
      PEvent.isPlay e = false) :=
  ⟨rfl, rfl,
   transition_missing_file noFiles midFadeState "ghost.wav" 30 false rfl⟩

/-! ## Helper lemmas for the multi-layer manager -/

theorem fadeoutCh_busy (c : Channel) (ms : Nat) :
    (c.fadeoutCh ms).busy = c.busy := by
  unfold Channel.fadeoutCh
  split <;> rfl

theorem updateCh_self (m : Nat → Channel) (i : Nat) (f : Channel → Channel) :
    updateCh m i f i = f (m i) := by
  simp [updateCh]

theorem updateCh_ne (m : Nat → Channel) (i j : Nat) (f : Channel → Channel)
    (h : j ≠ i) : updateCh m i f j = m j := by
  simp [updateCh, Function.update_noteq h]

theorem fadeAll_busy (L : List Nat) :
    ∀ (m : Nat → Channel) (i : Nat), (fadeAll m L i).busy = (m i).busy := by
  induction L with
  | nil => intro m i; rfl
  | cons a t ih =>
    intro m i
    show (fadeAll (updateCh m a (fun c => c.fadeoutCh 6000)) t i).busy = _
    rw [ih]
    by_cases h : i = a
    · subst h
      rw [updateCh_self, fadeoutCh_busy]
    · rw [updateCh_ne _ _ _ _ h]

theorem fadeAll_not_mem (L : List Nat) :
    ∀ (m : Nat → Channel) (i : Nat), i ∉ L → fadeAll m L i = m i := by
  induction L with
  | nil => intro m i _; rfl
  | cons a t ih =>
    intro m i hi
    have hia : i ≠ a := fun h => hi (h ▸ List.mem_cons_self a t)
    have hit : i ∉ t := fun h => hi (List.mem_cons_of_mem a h)
    show fadeAll (updateCh m a (fun c => c.fadeoutCh 6000)) t i = m i
    rw [ih _ _ hit, updateCh_ne _ _ _ _ hia]

theorem findChannelAux_some (m : Nat → Channel) (j : Nat) :
    ∀ L : List Nat, findChannelAux m L = some j →
      j ∈ L ∧ (m j).busy = false := by
  intro L
  induction L with
  | nil => intro h; cases h
  | cons a t ih =>
    intro h
    by_cases hb : (m a).busy
    · rw [findChannelAux, if_pos hb] at h
      exact ⟨List.mem_cons_of_mem a (ih h).1, (ih h).2⟩
    · rw [findChannelAux, if_neg hb] at h
      have haj : a = j := Option.some.inj h
      subst haj
      exact ⟨List.mem_cons_self a t, by simpa using hb⟩

theorem findChannelAux_none (m : Nat → Channel) :
    ∀ L : List Nat, findChannelAux m L = none →
      ∀ j ∈ L, (m j).busy = true := by
  intro L
  induction L with
  | nil => intro _ j hj; cases hj
  | cons a t ih =>
    intro h j hj
    by_cases hb : (m a).busy
    · rw [findChannelAux, if_pos hb] at h
      rcases List.mem_cons.mp hj with rfl | hjt
      · exact hb
      · exact ih h j hjt
    · rw [findChannelAux, if_neg hb] at h
      cases h

theorem find_channel_some (m : Nat → Channel) (j : Nat)
    (h : find_channel m = some j) :
    j < NUM_CHANNELS ∧ (m j).busy = false := by
  have := findChannelAux_some m j (List.range NUM_CHANNELS) h
  exact ⟨List.mem_range.mp this.1, this.2⟩

theorem countP_ext_on (p q : Nat → Bool) :
    ∀ L : List Nat, (∀ i ∈ L, p i = q i) → L.countP p = L.countP q := by
  intro L
  induction L with
  | nil => intro _; rfl
  | cons a t ih =>
    intro h
    rw [List.countP_cons, List.countP_cons,
      ih (fun i hi => h i (List.mem_cons_of_mem a hi)),
      h a (List.mem_cons_self a t)]

theorem find_channel_none_count (m : Nat → Channel)
    (h : find_channel m = none) : freeChannelCount m = 0 := by
  rw [freeChannelCount, List.countP_eq_zero]
  intro i hi
  simp [findChannelAux_none m (List.range NUM_CHANNELS) h i hi]

theorem find_channel_some_count (m : Nat → Channel) (j : Nat)
    (h : find_channel m = some j) : 0 < freeChannelCount m := by
  rcases find_channel_some m j h with ⟨hlt, hfree⟩
  rw [freeChannelCount, List.countP_pos_iff]
  exact ⟨j, List.mem_range.mpr hlt, by simp [hfree]⟩

theorem countP_update_free_to_busy (m : Nat → Channel) (j : Nat) (c : Channel)
    (hfree : (m j).busy = false) (hbusy : c.busy = true) :
    ∀ L : List Nat, L.Nodup → j ∈ L →
      L.countP (fun i => !(Function.update m j c i).busy) + 1 =
        L.countP (fun i => !(m i).busy) := by
  intro L
  induction L with
  | nil => intro _ hj; cases hj
  | cons a t ih =>
    intro hnd hj
    have hext : ∀ i ∈ t, i ≠ j →
        (!(Function.update m j c i).busy) = (!(m i).busy) := by
      intro i _ hij
      rw [Function.update_noteq hij]
    rcases List.mem_cons.mp hj with rfl | hjt
    · have hnot : j ∉ t := (List.nodup_cons.mp hnd).1
      rw [List.countP_cons, List.countP_cons]
      have h3 : t.countP (fun i => !(Function.update m j c i).busy) =
          t.countP (fun i => !(m i).busy) :=
        countP_ext_on _ _ t (fun i hi =>
          hext i hi (fun h => hnot (h ▸ hi)))
      simp [h3, Function.update_same, hbusy, hfree]
    · have haj : a ≠ j := fun h => (List.nodup_cons.mp hnd).1 (h ▸ hjt)
      rw [List.countP_cons, List.countP_cons,
        ← ih (List.nodup_cons.mp hnd).2 hjt]
      have h4 : (!(Function.update m j c a).busy) = (!(m a).busy) := by
        rw [Function.update_noteq haj]
      rw [h4]
      omega

theorem freeChannelCount_update (m : Nat → Channel) (j : Nat) (c : Channel)
    (hj : j < NUM_CHANNELS) (hfree : (m j).busy = false)
    (hbusy : c.busy = true) :
    freeChannelCount (Function.update m j c) + 1 = freeChannelCount m :=
  countP_update_free_to_busy m j c hfree hbusy (List.range NUM_CHANNELS)
    (List.nodup_range NUM_CHANNELS) (List.mem_range.mpr hj)

theorem freeChannelCount_ext (m m2 : Nat → Channel)
    (h : ∀ i, (m i).busy = (m2 i).busy) :
    freeChannelCount m = freeChannelCount m2 :=
  countP_ext_on _ _ (List.range NUM_CHANNELS) (fun i _ => by rw [h i])

theorem startSoundscape_none (manifest : String → String) (inst : Option Nat)
    (m : Nat → Channel) (l : Layer) (h : find_channel m = none) :
    startSoundscape manifest inst m l = (m, none, []) := by
  simp [startSoundscape, h]

theorem startSoundscape_inst (manifest : String → String)
    (m : Nat → Channel) (l : Layer) (j : Nat) (h : find_channel m = some j) :
    startSoundscape manifest (some j) m l = (m, none, []) := by
  simp [startSoundscape, h]

theorem startSoundscape_start (manifest : String → String) (inst : Option Nat)
    (m : Nat → Channel) (l : Layer) (j : Nat) (h : find_channel m = some j)
    (hj : some j ≠ inst) :
    startSoundscape manifest inst m l =
      (updateCh m j (fun c =>
          (c.withVolume l.globalGain).startPlay (manifest l.id) (-1)),
       some j,
       [LMEvent.setVolume j l.globalGain,
        LMEvent.playCh j (manifest l.id) (-1) 6000]) := by
  simp [startSoundscape, h, hj]

theorem startInstrumental_none (manifest : String → String)
    (m : Nat → Channel) (l : Layer) (h : find_channel m = none) :
    startInstrumental manifest m l = (m, none, []) := by
  simp [startInstrumental, h]

theorem startInstrumental_start (manifest : String → String)
    (m : Nat → Channel) (l : Layer) (j : Nat) (h : find_channel m = some j) :
    startInstrumental manifest m l =
      (updateCh m j (fun c =>
          (c.withVolume l.globalGain).startPlay (manifest l.id) 0),
       some j,
       [LMEvent.setVolume j l.globalGain,
        LMEvent.playCh j (manifest l.id) 0 6000]) := by
  simp [startInstrumental, h]

theorem processSoundscapes_cons (manifest : String → String)
    (inst : Option Nat) (l : Layer) (rest : List Layer) (m : Nat → Channel) :
    processSoundscapes manifest inst (l :: rest) m =
      ((processSoundscapes manifest inst rest
          (startSoundscape manifest inst m l).1).1,
       (startSoundscape manifest inst m l).2.1.toList ++
         (processSoundscapes manifest inst rest
           (startSoundscape manifest inst m l).1).2.1,
       (startSoundscape manifest inst m l).2.2 ++
         (processSoundscapes manifest inst rest
           (startSoundscape manifest inst m l).1).2.2) := rfl

theorem processSoundscapes_preserves_busy (manifest : String → String)
    (inst : Option Nat) (i : Nat) :
    ∀ (ss : List Layer) (m : Nat → Channel), (m i).busy = true →
      (processSoundscapes manifest inst ss m).1 i = m i ∧
      i ∉ (processSoundscapes manifest inst ss m).2.1 ∧
      ∀ e ∈ (processSoundscapes manifest inst ss m).2.2, e.target ≠ i := by
  intro ss
  induction ss with
  | nil =>
    intro m _
    exact ⟨rfl, by simp [processSoundscapes], by simp [processSoundscapes]⟩
  | cons l rest ih =>
    intro m hb
    rcases hfc : find_channel m with _ | j
    · rw [processSoundscapes_cons, startSoundscape_none manifest inst m l hfc]
      rcases ih m hb with ⟨ih1, ih2, ih3⟩
      exact ⟨ih1, by simpa using ih2, by simpa using ih3⟩
    · by_cases hinst : some j = inst
      · rcases hinst.symm with rfl
        rw [processSoundscapes_cons, startSoundscape_inst manifest m l j hfc]
        rcases ih m hb with ⟨ih1, ih2, ih3⟩
        exact ⟨ih1, by simpa using ih2, by simpa using ih3⟩
      · have hfree : (m j).busy = false :=
          (findChannelAux_some m j _ hfc).2
        have hij : j ≠ i := by
          intro h
          rw [h, hb] at hfree
          cases hfree
        rw [processSoundscapes_cons,
          startSoundscape_start manifest inst m l j hfc hinst]
        have hb2 : (updateCh m j (fun c =>
            (c.withVolume l.globalGain).startPlay (manifest l.id) (-1)) i).busy
            = true := by
          rw [updateCh_ne _ _ _ _ (Ne.symm hij)]
          exact hb
        rcases ih _ hb2 with ⟨ih1, ih2, ih3⟩
        refine ⟨?_, ?_, ?_⟩
        · rw [ih1, updateCh_ne _ _ _ _ (Ne.symm hij)]
        · simp only [Option.toList_some, List.mem_append, List.mem_singleton]
          rintro (rfl | h2)
          · exact hij rfl
          · exact ih2 h2
        · intro e he
          rcases List.mem_append.mp he with h4 | h4
          · rcases List.mem_cons.mp h4 with rfl | h5
            · simpa [LMEvent.target] using hij
            · rcases List.mem_singleton.mp h5 with rfl
              simpa [LMEvent.target] using hij
          · exact ih3 e h4

theorem processSoundscapes_length (manifest : String → String) :
    ∀ (ss : List Layer) (inst : Option Nat) (m : Nat → Channel),
      (∀ i, inst = some i → (m i).busy = true) →
      (processSoundscapes manifest inst ss m).2.1.length =
        min ss.length (freeChannelCount m) := by
  intro ss
  induction ss with
  | nil => intro inst m _; simp [processSoundscapes]
  | cons l rest ih =>
    intro inst m hinst
    rcases hfc : find_channel m with _ | j
    · rw [processSoundscapes_cons, startSoundscape_none manifest inst m l hfc]
      have h0 : freeChannelCount m = 0 := find_channel_none_count m hfc
      have hrec := ih inst m hinst
      simp [hrec, h0]
    · have hfree : (m j).busy = false := (findChannelAux_some m j _ hfc).2
      have hjne : some j ≠ inst := by
        intro h
        have hbj := hinst j h.symm
        rw [hbj] at hfree
        cases hfree
      rw [processSoundscapes_cons,
        startSoundscape_start manifest inst m l j hfc hjne]
      have hinst2 : ∀ i, inst = some i →
          ((updateCh m j (fun c =>
            (c.withVolume l.globalGain).startPlay (manifest l.id) (-1))) i).busy
            = true := by
        intro i hi
        have hbi := hinst i hi
        have hij : i ≠ j := by
          intro h
          rw [h, hfree] at hbi
          cases hbi
        rw [updateCh_ne _ _ _ _ hij]
        exact hbi
      have hcount : freeChannelCount (updateCh m j (fun c =>
          (c.withVolume l.globalGain).startPlay (manifest l.id) (-1))) + 1 =
          freeChannelCount m := by
        have hlt : j < NUM_CHANNELS := (find_channel_some m j hfc).1
        exact freeChannelCount_update m j _ hlt hfree rfl
      have hrec := ih inst _ hinst2
      simp only [hrec, Option.toList_some, List.length_append,
        List.length_singleton, List.length_cons, List.length_nil]
      rw [← hcount, Nat.succ_min_succ]
      omega

theorem processSoundscapes_events (manifest : String → String) :
    ∀ (ss : List Layer) (inst : Option Nat) (m : Nat → Channel) (e : LMEvent),
      e ∈ (processSoundscapes manifest inst ss m).2.2 →
      (∀ ch ms, e ≠ LMEvent.fadeout ch ms) ∧
      (∀ ch p lp fm, e = LMEvent.playCh ch p lp fm →
        lp = -1 ∧ fm = 6000) := by
  intro ss
  induction ss with
  | nil => intro inst m e he; simp [processSoundscapes] at he
  | cons l rest ih =>
    intro inst m e he
    rcases hfc : find_channel m with _ | j
    · rw [processSoundscapes_cons,
        startSoundscape_none manifest inst m l hfc] at he
      exact ih inst m e (by simpa using he)
    · by_cases hinst : some j = inst
      · rcases hinst.symm with rfl
        rw [processSoundscapes_cons,
          startSoundscape_inst manifest m l j hfc] at he
        exact ih (some j) m e (by simpa using he)
      · rw [processSoundscapes_cons,
          startSoundscape_start manifest inst m l j hfc hinst] at he
        rcases List.mem_append.mp he with h4 | h4
        · rcases List.mem_cons.mp h4 with rfl | h5
          · refine ⟨?_, ?_⟩
            · intro ch ms h
              cases h
            · intro ch p lp fm h
              cases h
          · rcases List.mem_singleton.mp h5 with rfl
            refine ⟨?_, ?_⟩
            · intro ch ms h
              cases h
            · intro ch p lp fm h
              cases h
              exact ⟨rfl, rfl⟩
        · exact ih inst _ e h4

theorem processSoundscapes_acts_events (manifest : String → String) :
    ∀ (ss : List Layer) (inst : Option Nat) (m : Nat → Channel) (i : Nat),
      i ∈ (processSoundscapes manifest inst ss m).2.1 →
      ∃ l ∈ ss,
        LMEvent.setVolume i l.globalGain ∈
          (processSoundscapes manifest inst ss m).2.2 ∧
        LMEvent.playCh i (manifest l.id) (-1) 6000 ∈
          (processSoundscapes manifest inst ss m).2.2 := by
  intro ss
  induction ss with
  | nil => intro inst m i hi; simp [processSoundscapes] at hi
  | cons l rest ih =>
    intro inst m i hi
    rcases hfc : find_channel m with _ | j
    · rw [processSoundscapes_cons, startSoundscape_none manifest inst m l hfc]
      rw [processSoundscapes_cons,
        startSoundscape_none manifest inst m l hfc] at hi
      rcases ih inst m i (by simpa using hi) with ⟨l2, hl2, hsv, hpc⟩
      exact ⟨l2, List.mem_cons_of_mem l hl2, by simpa using hsv,
        by simpa using hpc⟩
    · by_cases hinst : some j = inst
      · rcases hinst.symm with rfl
        rw [processSoundscapes_cons, startSoundscape_inst manifest m l j hfc]
        rw [processSoundscapes_cons,
          startSoundscape_inst manifest m l j hfc] at hi
        rcases ih (some j) m i (by simpa using hi) with ⟨l2, hl2, hsv, hpc⟩
        exact ⟨l2, List.mem_cons_of_mem l hl2, by simpa using hsv,
          by simpa using hpc⟩
      · rw [processSoundscapes_cons,
          startSoundscape_start manifest inst m l j hfc hinst]
        rw [processSoundscapes_cons,
          startSoundscape_start manifest inst m l j hfc hinst] at hi
        simp only [Option.toList_some, List.mem_append,
          List.mem_singleton] at hi
        rcases hi with rfl | h5
        · refine ⟨l, List.mem_cons_self l rest, ?_, ?_⟩
          · exact List.mem_append_left _ (List.mem_cons_self _ _)
          · exact List.mem_append_left _
              (List.mem_cons_of_mem _ (List.mem_singleton.mpr rfl))
        · rcases ih inst _ i h5 with ⟨l2, hl2, hsv, hpc⟩
          exact ⟨l2, List.mem_cons_of_mem l hl2,
            List.mem_append_right _ hsv, List.mem_append_right _ hpc⟩

theorem processInstrumentals_events (manifest : String → String) :
    ∀ (insts : List Layer) (m : Nat → Channel) (inst : Option Nat)
      (e : LMEvent), e ∈ (processInstrumentals manifest insts m inst).2.2 →
      (∀ ch ms, e ≠ LMEvent.fadeout ch ms) ∧
      (∀ ch p lp fm, e = LMEvent.playCh ch p lp fm →
        lp = 0 ∧ fm = 6000 ∧ ∃ l ∈ insts, p = manifest l.id) := by
  intro insts
  induction insts with
  | nil => intro m inst e he; simp [processInstrumentals] at he
  | cons l rest ih =>
    intro m inst e he
    rcases hfc : find_channel m with _ | j
    · simp only [processInstrumentals,
        startInstrumental_none manifest m l hfc] at he
      rcases ih m inst e (by simpa using he) with ⟨ha, hb⟩
      refine ⟨ha, ?_⟩
      intro ch p lp fm heq
      rcases hb ch p lp fm heq with ⟨h1, h2, l2, hl2, h3⟩
      exact ⟨h1, h2, l2, List.mem_cons_of_mem l hl2, h3⟩
    · simp only [processInstrumentals,
        startInstrumental_start manifest m l j hfc] at he
      rcases (by simpa using he :
          e = LMEvent.setVolume j l.globalGain ∨
          e = LMEvent.playCh j (manifest l.id) 0 6000 ∨
          e ∈ (processInstrumentals manifest rest
            (updateCh m j fun c =>
              (c.withVolume l.globalGain).startPlay (manifest l.id) 0)
            (some j)).2.2) with rfl | rfl | h4
      · refine ⟨?_, ?_⟩
        · intro ch ms h
          cases h
        · intro ch p lp fm h
          cases h
      · refine ⟨?_, ?_⟩
        · intro ch ms h
          cases h
        · intro ch p lp fm h
          cases h
          exact ⟨rfl, rfl, l, List.mem_cons_self l rest, rfl⟩
      · rcases ih _ _ e h4 with ⟨ha, hb⟩
        refine ⟨ha, ?_⟩
        intro ch p lp fm heq
        rcases hb ch p lp fm heq with ⟨h1, h2, l2, hl2, h3⟩
        exact ⟨h1, h2, l2, List.mem_cons_of_mem l hl2, h3⟩

theorem transition_decomp (manifest : String → String) (s : LMState)
    (ss insts : List Layer) :
    LayerManager.transition manifest s ss insts =
      (let m0 := fadeAll s.mixer s.activeChannels
       let r1 := processSoundscapes manifest (cleanedInstrumental s) ss m0
       let g : Bool := match cleanedInstrumental s with
         | none => true
         | some i => !(r1.1 i).busy
       let r2 := if g then processInstrumentals manifest insts r1.1 none
         else (r1.1, cleanedInstrumental s, [])
       ({ mixer := r2.1, activeChannels := r1.2.1,
          instrumentalChannel := r2.2.1 },
        s.activeChannels.map (fun i => LMEvent.fadeout i 6000) ++
          r1.2.2 ++ r2.2.2)) := rfl

theorem transition_busy_instrumental_eq (manifest : String → String)
    (s : LMState) (ss insts : List Layer) (i : Nat)
    (h1 : s.instrumentalChannel = some i)
    (hfb : (fadeAll s.mixer s.activeChannels i).busy = true) :
    LayerManager.transition manifest s ss insts =
      ({ mixer := (processSoundscapes manifest (some i) ss
            (fadeAll s.mixer s.activeChannels)).1,
         activeChannels := (processSoundscapes manifest (some i) ss
            (fadeAll s.mixer s.activeChannels)).2.1,
         instrumentalChannel := some i },
       s.activeChannels.map (fun j => LMEvent.fadeout j 6000) ++
         (processSoundscapes manifest (some i) ss
            (fadeAll s.mixer s.activeChannels)).2.2) := by
  have hci : cleanedInstrumental s = some i := by
    simp [cleanedInstrumental, h1, hfb]
  obtain ⟨hp1, _, _⟩ := processSoundscapes_preserves_busy manifest (some i)
    i ss (fadeAll s.mixer s.activeChannels) hfb
  have hr1busy : ((processSoundscapes manifest (some i) ss
      (fadeAll s.mixer s.activeChannels)).1 i).busy = true := by
    rw [hp1]
    exact hfb
  rw [transition_decomp]
  simp [hci, hr1busy]

/-- Claim C5: every call of LayerManager.transition issues a 6000 ms
fadeout on exactly the channels of the active soundscape set; and the
tracked instrumental channel, when it is still playing (and, as in every
reachable state, not among the active soundscape channels), is untouched
by the whole call: no effect targets it, its channel state (sound,
volume, loops, busy) is unchanged, and it stays the tracked
instrumental. -/
theorem lm_transition_instrumental_exempt (manifest : String → String)
    (s : LMState) (ss insts : List Layer) :
    (∀ j ∈ s.activeChannels, LMEvent.fadeout j 6000 ∈
      (LayerManager.transition manifest s ss insts).2) ∧
    (∀ j ms, LMEvent.fadeout j ms ∈
        (LayerManager.transition manifest s ss insts).2 →
      j ∈ s.activeChannels ∧ ms = 6000) ∧
    (∀ i, s.instrumentalChannel = some i → (s.mixer i).busy = true →
      i ∉ s.activeChannels →
      (∀ e ∈ (LayerManager.transition manifest s ss insts).2,
        e.target ≠ i) ∧
      (LayerManager.transition manifest s ss insts).1.mixer i =
        s.mixer i ∧
      (LayerManager.transition manifest s ss insts).1.instrumentalChannel =
        some i) := by
  refine ⟨?_, ?_, ?_⟩
  · intro j hj
    rw [transition_decomp]
    dsimp only
    exact List.mem_append_left _ (List.mem_append_left _
      (List.mem_map_of_mem (fun j => LMEvent.fadeout j 6000) hj))
  · intro j ms hmem
    rw [transition_decomp] at hmem
    dsimp only at hmem
    rcases List.mem_append.mp hmem with h4 | h4
    · rcases List.mem_append.mp h4 with h5 | h5
      · rcases List.mem_map.mp h5 with ⟨j0, hj0, heq2⟩
        cases heq2
        exact ⟨hj0, rfl⟩
      · exact absurd rfl
          ((processSoundscapes_events manifest ss _ _ _ h5).1 j ms)
    · revert h4
      split
      · intro h4
        exact absurd rfl
          ((processInstrumentals_events manifest insts _ _ _ h4).1 j ms)
      · intro h4
        simp at h4
  · intro i h1 h2 h3
    have hfb : (fadeAll s.mixer s.activeChannels i).busy = true := by
      rw [fadeAll_busy]
      exact h2
    obtain ⟨hp1, hp2, hp3⟩ := processSoundscapes_preserves_busy manifest
      (some i) i ss (fadeAll s.mixer s.activeChannels) hfb
    rw [transition_busy_instrumental_eq manifest s ss insts i h1 hfb]
    refine ⟨?_, hp1.trans (fadeAll_not_mem _ _ _ h3), rfl⟩
    intro e he
    rcases List.mem_append.mp he with h4 | h4
    · rcases List.mem_map.mp h4 with ⟨j0, hj0, heq2⟩
      rcases heq2.symm with rfl
      intro hh
      exact h3 ((by simpa [LMEvent.target] using hh : j0 = i) ▸ hj0)
    · exact hp3 e h4

/-- Witness for C5: at a pool with two active soundscapes and a busy
instrumental one-shot on channel 2, requesting three new soundscapes and
one instrumental. -/
theorem lm_transition_instrumental_exempt_witness :
    (∀ j ∈ demoLMState.activeChannels, LMEvent.fadeout j 6000 ∈
      (LayerManager.transition demoManifest demoLMState demoLayers
        demoInsts).2) ∧
    (∀ j ms, LMEvent.fadeout j ms ∈
        (LayerManager.transition demoManifest demoLMState demoLayers
          demoInsts).2 →
      j ∈ demoLMState.activeChannels ∧ ms = 6000) ∧
    demoLMState.instrumentalChannel = some 2 ∧
    (demoLMState.mixer 2).busy = true ∧
    2 ∉ demoLMState.activeChannels ∧
    ((∀ e ∈ (LayerManager.transition demoManifest demoLMState demoLayers
        demoInsts).2, e.target ≠ 2) ∧
    (LayerManager.transition demoManifest demoLMState demoLayers
      demoInsts).1.mixer 2 = demoLMState.mixer 2 ∧
    (LayerManager.transition demoManifest demoLMState demoLayers
      demoInsts).1.instrumentalChannel = some 2) :=
  ⟨(lm_transition_instrumental_exempt demoManifest demoLMState demoLayers
      demoInsts).1,
   (lm_transition_instrumental_exempt demoManifest demoLMState demoLayers
      demoInsts).2.1,
   rfl, rfl, by decide,
   (lm_transition_instrumental_exempt demoManifest demoLMState demoLayers
      demoInsts).2.2 2 rfl rfl (by decide)⟩

/-- Claim C8: in every LayerManager.transition call, every play effect
uses a 6000 ms fade-in and is either a soundscape start looping forever
(loops equal to minus one) or an instrumental start playing exactly once
(loops equal to zero, of a path drawn from the instrumental request
list); each channel recorded in the new active set was started with its
requested global gain and with infinite looping; and when the tracked
instrumental channel is still busy no one-shot play is issued at all. -/
theorem lm_transition_layers (manifest : String → String) (s : LMState)
    (ss insts : List Layer) :
    (∀ ch p lp fm, LMEvent.playCh ch p lp fm ∈
        (LayerManager.transition manifest s ss insts).2 →
      fm = 6000 ∧
        (lp = -1 ∨ (lp = 0 ∧ ∃ l ∈ insts, p = manifest l.id))) ∧
    (∀ ch ∈ (LayerManager.transition manifest s ss insts).1.activeChannels,
      ∃ l ∈ ss,
        LMEvent.setVolume ch l.globalGain ∈
          (LayerManager.transition manifest s ss insts).2 ∧
        LMEvent.playCh ch (manifest l.id) (-1) 6000 ∈
          (LayerManager.transition manifest s ss insts).2) ∧
    (s.trackedInstrumentalBusy = true →
      ∀ ch p fm, LMEvent.playCh ch p 0 fm ∈
        (LayerManager.transition manifest s ss insts).2 → False) := by
  refine ⟨?_, ?_, ?_⟩
  · intro ch p lp fm hmem
    rw [transition_decomp] at hmem
    dsimp only at hmem
    rcases List.mem_append.mp hmem with h4 | h4
    · rcases List.mem_append.mp h4 with h5 | h5
      · rcases List.mem_map.mp h5 with ⟨j0, _, heq2⟩
        cases heq2
      · have h6 := (processSoundscapes_events manifest ss _ _ _ h5).2
          ch p lp fm rfl
        exact ⟨h6.2, Or.inl h6.1⟩
    · revert h4
      split
      · intro h4
        have h6 := (processInstrumentals_events manifest insts _ _ _ h4).2
          ch p lp fm rfl
        exact ⟨h6.2.1, Or.inr ⟨h6.1, h6.2.2⟩⟩
      · intro h4
        simp at h4
  · intro ch hch
    rw [transition_decomp] at hch ⊢
    dsimp only at hch ⊢
    rcases processSoundscapes_acts_events manifest ss _ _ ch hch with
      ⟨l, hl, hsv, hpc⟩
    exact ⟨l, hl,
      List.mem_append_left _ (List.mem_append_right _ hsv),
      List.mem_append_left _ (List.mem_append_right _ hpc)⟩
  · intro hbusy ch p fm hmem
    rcases hsi : s.instrumentalChannel with _ | i
    · simp [LMState.trackedInstrumentalBusy, hsi] at hbusy
    · have hb2 : (s.mixer i).busy = true := by
        simpa [LMState.trackedInstrumentalBusy, hsi] using hbusy
      have hfb : (fadeAll s.mixer s.activeChannels i).busy = true := by
        rw [fadeAll_busy]
        exact hb2
      rw [transition_busy_instrumental_eq manifest s ss insts i hsi hfb]
        at hmem
      dsimp only at hmem
      rcases List.mem_append.mp hmem with h4 | h4
      · rcases List.mem_map.mp h4 with ⟨j0, _, heq2⟩
        cases heq2
      · have h6 := (processSoundscapes_events manifest ss _ _ _ h4).2
          ch p 0 fm rfl
        exact absurd h6.1 (by decide)

/-- Witness for C8 at a pool whose tracked instrumental is still busy. -/
theorem lm_transition_layers_witness :
    (∀ ch p lp fm, LMEvent.playCh ch p lp fm ∈
        (LayerManager.transition demoManifest demoLMState demoLayers
          demoInsts).2 →
      fm = 6000 ∧
        (lp = -1 ∨ (lp = 0 ∧ ∃ l ∈ demoInsts, p = demoManifest l.id))) ∧
    (∀ ch ∈ (LayerManager.transition demoManifest demoLMState demoLayers
        demoInsts).1.activeChannels,
      ∃ l ∈ demoLayers,
        LMEvent.setVolume ch l.globalGain ∈
          (LayerManager.transition demoManifest demoLMState demoLayers
            demoInsts).2 ∧
        LMEvent.playCh ch (demoManifest l.id) (-1) 6000 ∈
          (LayerManager.transition demoManifest demoLMState demoLayers
            demoInsts).2) ∧
    (demoLMState.trackedInstrumentalBusy = true →
      ∀ ch p fm, LMEvent.playCh ch p 0 fm ∈
        (LayerManager.transition demoManifest demoLMState demoLayers
          demoInsts).2 → False) :=
  lm_transition_layers demoManifest demoLMState demoLayers demoInsts

/-- Claim C9: LayerManager.transition never fails on channel-pool
exhaustion: the embedded call is total, the new active set holds exactly
the smaller of the requested soundscape count and the number of free
channels (excess layers are simply absent), and a layer whose channel
lookup comes back empty is skipped outright while the remaining layers
of the same call are processed exactly as if it had not been requested. -/
theorem lm_transition_exhaustion (manifest : String → String) (s : LMState)
    (ss insts : List Layer) :
    (LayerManager.transition manifest s ss insts).1.activeChannels.length =
      min ss.length (freeChannelCount s.mixer) ∧
    (∀ (inst : Option Nat) (m : Nat → Channel) (l : Layer),
      find_channel m = none →
        startSoundscape manifest inst m l = (m, none, [])) ∧
    (∀ (inst : Option Nat) (m : Nat → Channel) (l : Layer)
      (rest : List Layer),
      find_channel m = none →
        processSoundscapes manifest inst (l :: rest) m =
          processSoundscapes manifest inst rest m) := by
  refine ⟨?_, ?_, ?_⟩
  · rw [transition_decomp]
    dsimp only
    have hinst : ∀ i, cleanedInstrumental s = some i →
        ((fadeAll s.mixer s.activeChannels) i).busy = true := by
      intro i hi
      rcases hsi : s.instrumentalChannel with _ | j
      · simp [cleanedInstrumental, hsi] at hi
      · by_cases hb : (fadeAll s.mixer s.activeChannels j).busy = true
        · have hcj : cleanedInstrumental s = some j := by
            simp [cleanedInstrumental, hsi, hb]
          have hji : some j = some i := hcj.symm.trans hi
          cases hji
          exact hb
        · have hcn : cleanedInstrumental s = none := by
            simp [cleanedInstrumental, hsi, hb]
          rw [hcn] at hi
          cases hi
    rw [processSoundscapes_length manifest ss (cleanedInstrumental s) _ hinst,
      show freeChannelCount (fadeAll s.mixer s.activeChannels) =
          freeChannelCount s.mixer from
        freeChannelCount_ext _ _ (fun i => fadeAll_busy _ _ i)]
  · intro inst m l h
    exact startSoundscape_none manifest inst m l h
  · intro inst m l rest h
    rw [processSoundscapes_cons, startSoundscape_none manifest inst m l h]
    simp

/-- Witness for C9: the count identity at the demo pool, and the silent
skip at a fully busy pool. -/
theorem lm_transition_exhaustion_witness :
    ((LayerManager.transition demoManifest demoLMState demoLayers
        demoInsts).1.activeChannels.length =
      min demoLayers.length (freeChannelCount demoLMState.mixer)) ∧
    find_channel fullMixer = none ∧
    startSoundscape demoManifest none fullMixer demoLayer0 =
      (fullMixer, none, []) ∧
    processSoundscapes demoManifest none (demoLayer0 :: []) fullMixer =
      processSoundscapes demoManifest none [] fullMixer :=
  ⟨(lm_transition_exhaustion demoManifest demoLMState demoLayers demoInsts).1,
   rfl,
   (lm_transition_exhaustion demoManifest demoLMState demoLayers
     demoInsts).2.1 none fullMixer demoLayer0 rfl,
   (lm_transition_exhaustion demoManifest demoLMState demoLayers
     demoInsts).2.2 none fullMixer demoLayer0 [] rfl⟩

end CoSounds
